import Mathlib

/-!
Shallow embedding of the CRM GraphQL mutation handlers of
`src/crm/schema.py` (Django + graphene), together with theorems checking
the natural-language specification against them.

Conventions of the embedding:
* The relational store (`Customer.objects`, `Product.objects`,
  `Order.objects`) is an explicit `Store` value threaded through each
  mutation.  `crm/models.py` is not part of the sources, so the shape of
  the three record types is modelled from the spec (§3) and from the ORM
  calls the mutations make (`filter(email=...).exists()`, `get(id=...)`,
  `save()`, `products.set(...)`).
* A Python `raise Exception(msg)` becomes `Except.error`; each distinct
  raise site of the source is one constructor of `Err`, carrying the data
  the message interpolates.  The spec's error taxonomy (§7) maps the raise
  sites to ValidationError / ConflictError / NotFoundError; the functions
  `Err.isValidation`, `Err.isConflict`, `Err.isNotFound` record that map.
* Decimal values are embedded as exact rationals (`ℚ`): Python's
  `Decimal` arithmetic on these programs (construction from a float,
  addition) is exact, and a binary64 float is itself an exact rational.
* Python truthiness of the optional string arguments (`if phone and ...`,
  `if not name or not email`) is embedded explicitly: `none` and `some ""`
  are falsy.
-/

namespace Crm

/-- A persisted Customer row: `id` is the auto-assigned primary key; the
fields mirror `Customer(name=..., email=..., phone=...)` in
`src/crm/schema.py`. -/
structure Customer where
  id : Nat
  name : String
  email : String
  phone : Option String
deriving Repr, DecidableEq

/-- A persisted Product row, as constructed by
`Product(name=name, price=Decimal(price), stock=stock)`.  `price` is the
exact rational value of the stored decimal; `stock` an integer. -/
structure Product where
  id : Nat
  name : String
  price : ℚ
  stock : Int
deriving Repr, DecidableEq

/-- A persisted Order row.  `productIds` is the many-to-many association
written by `order.products.set(products)`: Django's `set`/`add` insert
each related product at most once (the association is a set of
(order, product) pairs), so the list is deduplicated.  `orderDate` is
`none` when the mutation left the model default in place. -/
structure Order where
  id : Nat
  customerId : Nat
  productIds : List Nat
  totalAmount : ℚ
  orderDate : Option Nat
deriving Repr, DecidableEq

/-- The relational store backing the three `objects` managers, with the
next auto-increment primary key for each table. -/
structure Store where
  customers : List Customer
  products : List Product
  orders : List Order
  nextCustomerId : Nat
  nextProductId : Nat
  nextOrderId : Nat
deriving Repr, DecidableEq

/-- The empty store (fresh database). -/
def emptyStore : Store :=
  ⟨[], [], [], 1, 1, 1⟩

/-- `Customer.objects.filter(email=email).exists()`. -/
def hasEmail (s : Store) (email : String) : Bool :=
  s.customers.any (fun c => c.email == email)

/-- `Customer.objects.get(id=customer_id)`, `none` when
`Customer.DoesNotExist` is raised. -/
def findCustomer (s : Store) (id : Nat) : Option Customer :=
  s.customers.find? (fun c => c.id == id)

/-- `Product.objects.get(id=pid)`, `none` when `Product.DoesNotExist`
is raised. -/
def findProduct (s : Store) (id : Nat) : Option Product :=
  s.products.find? (fun p => p.id == id)

/-- One constructor per raise site of `src/crm/schema.py` (outside the
bulk loop, whose raises are caught and turned into strings). -/
inductive Err where
  | emailExists
  | invalidPhone
  | invalidPrice
  | invalidStock
  | invalidCustomer
  | emptyProducts
  | invalidProduct (pid : Nat)
deriving Repr, DecidableEq

/-- The message string each raise site interpolates. -/
def Err.message : Err → String
  | .emailExists => "Email already exists"
  | .invalidPhone => "Invalid phone format. Use +1234567890 or 123-456-7890"
  | .invalidPrice => "Price must be a positive number"
  | .invalidStock => "Stock must be a non-negative integer"
  | .invalidCustomer => "Invalid customer ID"
  | .emptyProducts => "At least one product must be selected"
  | .invalidProduct pid => "Invalid product ID: " ++ toString pid

/-- Classification of the raise sites as ValidationError, per the spec's
error taxonomy (§7): bad input shape/range/format. -/
def Err.isValidation : Err → Bool
  | .invalidPhone => true
  | .invalidPrice => true
  | .invalidStock => true
  | .emptyProducts => true
  | _ => false

/-- Classification as ConflictError per the spec taxonomy (§7):
uniqueness violation. -/
def Err.isConflict : Err → Bool
  | .emailExists => true
  | _ => false

/-- Classification as NotFoundError per the spec taxonomy (§7):
referenced entity does not exist. -/
def Err.isNotFound : Err → Bool
  | .invalidCustomer => true
  | .invalidProduct _ => true
  | _ => false

/-- The store after running a mutation from store `s`: every raise in the
source happens before any `save()` of that mutation, so an error leaves
the store as it was. -/
def runStore {α : Type} (s : Store) : Except Err (α × Store) → Store
  | .ok (_, s') => s'
  | .error _ => s

/-- ASCII decimal digit, the `\d` of the source's pattern. -/
def isDigit (c : Char) : Bool :=
  '0' ≤ c && c ≤ '9'

/-- The first alternative of `^(\+\d{10,15}|\d{3}-\d{3}-\d{4})$`:
a `+` followed by 10 to 15 digits. -/
def plusForm : List Char → Bool
  | '+' :: ds => ds.all isDigit && 10 ≤ ds.length && ds.length ≤ 15
  | _ => false

/-- The second alternative: three digits, dash, three digits, dash,
four digits. -/
def dashForm : List Char → Bool
  | [a, b, c, '-', d, e, f, '-', g, h, i, j] =>
      [a, b, c, d, e, f, g, h, i, j].all isDigit
  | _ => false

/-- The union pattern matched against the whole string. -/
def phoneCore (cs : List Char) : Bool :=
  plusForm cs || dashForm cs

/-- `re.match(r'^(\+\d{10,15}|\d{3}-\d{3}-\d{4})$', phone)` as a whole:
Python's `$` matches at the end of the string, or just before a newline
that ends the string, so a single trailing `'\n'` is tolerated. -/
def pythonPhoneMatch (phone : String) : Bool :=
  phoneCore phone.data ||
    (phone.data.getLast? == some '\n' && phoneCore phone.data.dropLast)

/-- Python truthiness of an optional string argument: `None` and the
empty string are falsy. -/
def strTruthy : Option String → Bool
  | none => false
  | some s => s ≠ ""

/-- `CreateCustomer.mutate` (src/crm/schema.py lines 42-52): uniqueness
check on email, then phone-format check guarded by truthiness, then save;
returns the customer and the success message. -/
def createCustomer (s : Store) (name email : String) (phone : Option String) :
    Except Err ((Customer × String) × Store) :=
  if hasEmail s email then
    .error .emailExists
  else if strTruthy phone && !pythonPhoneMatch (phone.getD "") then
    .error .invalidPhone
  else
    let c : Customer := ⟨s.nextCustomerId, name, email, phone⟩
    .ok ((c, "Customer created successfully"),
      { s with customers := s.customers ++ [c],
               nextCustomerId := s.nextCustomerId + 1 })

/-- One raw entry of the `input` list of `BulkCreateCustomers`: a JSON
mapping read with `item.get("name")`, `item.get("email")`,
`item.get("phone", None)`; an absent key yields `none`. -/
structure BulkItem where
  name : Option String
  email : Option String
  phone : Option String
deriving Repr, DecidableEq

/-- The `f"Row {i+1}: "` lead-in of every error message raised inside the
bulk loop, for the 1-based row number. -/
def rowTag (row : Nat) : String :=
  "Row " ++ toString row ++ ": "

/-- The body of the `for i, item in enumerate(input)` loop of
`BulkCreateCustomers.mutate` (src/crm/schema.py lines 66-86) for the row
numbered `row` (1-based, `i+1` in the source): the three raises inside
the `try` are caught by the `except` and become the error string. -/
def processItem (s : Store) (row : Nat) (item : BulkItem) :
    Except String (Customer × Store) :=
  if !strTruthy item.name || !strTruthy item.email then
    .error (rowTag row ++ "Name and email are required")
  else if hasEmail s (item.email.getD "") then
    .error (rowTag row ++ "Email already exists")
  else if strTruthy item.phone && !pythonPhoneMatch (item.phone.getD "") then
    .error (rowTag row ++ "Invalid phone format")
  else
    let c : Customer := ⟨s.nextCustomerId, item.name.getD "", item.email.getD "",
      item.phone⟩
    .ok (c, { s with customers := s.customers ++ [c],
                     nextCustomerId := s.nextCustomerId + 1 })

/-- The accumulation loop of `BulkCreateCustomers.mutate`: each row is
processed against the store as persisted so far (`customer.save()` runs
immediately on success), successes are appended to `valid_customers` and
caught exception messages to `errors`; `row` is the 1-based number of the
first entry of the remaining list. -/
def bulkLoop (s : Store) (row : Nat) :
    List BulkItem → (List Customer × List String) × Store
  | [] => (([], []), s)
  | item :: rest =>
    match processItem s row item with
    | .ok (c, s') =>
      let r := bulkLoop s' (row + 1) rest
      ((c :: r.1.1, r.1.2), r.2)
    | .error e =>
      let r := bulkLoop s (row + 1) rest
      ((r.1.1, e :: r.1.2), r.2)

/-- `BulkCreateCustomers.mutate` (src/crm/schema.py lines 62-88): returns
the pair of the created customers and the collected error strings; it
never raises. -/
def bulkCreateCustomers (s : Store) (input : List BulkItem) :
    (List Customer × List String) × Store :=
  bulkLoop s 1 input

/-- The per-row outcome stream of the bulk loop: the same iteration, but
recording for each entry whether it was persisted or which error string
it produced.  `bulkLoop` returns exactly the two projections of this
stream (proved below). -/
def bulkOutcomes (s : Store) (row : Nat) :
    List BulkItem → List (Except String Customer)
  | [] => []
  | item :: rest =>
    match processItem s row item with
    | .ok (c, s') => .ok c :: bulkOutcomes s' (row + 1) rest
    | .error e => .error e :: bulkOutcomes s (row + 1) rest

/-- The successes of an outcome stream, in order. -/
def outcomeOks : List (Except String Customer) → List Customer
  | [] => []
  | .ok c :: rest => c :: outcomeOks rest
  | .error _ :: rest => outcomeOks rest

/-- The error strings of an outcome stream, in order. -/
def outcomeErrors : List (Except String Customer) → List String
  | [] => []
  | .ok _ :: rest => outcomeErrors rest
  | .error e :: rest => e :: outcomeErrors rest

/-- `CreateProduct.mutate` (src/crm/schema.py lines 99-107).  The `price`
argument is declared `graphene.Float`, so the resolver receives a binary64
floating-point number; `price` here is that float's exact rational value
(every finite binary64 is a rational), on which the comparison
`price <= 0` and the conversion `Decimal(price)` are both exact. -/
def createProduct (s : Store) (name : String) (price : ℚ) (stock : Int) :
    Except Err (Product × Store) :=
  if price ≤ 0 then
    .error .invalidPrice
  else if stock < 0 then
    .error .invalidStock
  else
    let p : Product := ⟨s.nextProductId, name, price, stock⟩
    .ok (p, { s with products := s.products ++ [p],
                     nextProductId := s.nextProductId + 1 })

/-- The `for pid in product_ids` loop of `CreateOrder.mutate`
(src/crm/schema.py lines 130-136): resolves the ids in order and raises
on the first one that does not resolve, naming it; on success the
resolved products in input order (with multiplicity). -/
def resolveProducts (s : Store) : List Nat → Except Err (List Product)
  | [] => .ok []
  | pid :: rest =>
    match findProduct s pid with
    | none => .error (.invalidProduct pid)
    | some p =>
      match resolveProducts s rest with
      | .error e => .error e
      | .ok ps => .ok (p :: ps)

/-- `CreateOrder.mutate` (src/crm/schema.py lines 118-143): customer
lookup, the `if not product_ids` emptiness check, product resolution with
`total` accumulating the prices (starting from `Decimal('0.00')`), then
`order.save()` and `order.products.set(products)`.  Django's `set` stores
each related product once, so the persisted association is the
deduplicated id list. -/
def createOrder (s : Store) (customerId : Nat) (productIds : List Nat)
    (orderDate : Option Nat) : Except Err (Order × Store) :=
  match findCustomer s customerId with
  | none => .error .invalidCustomer
  | some _ =>
    if productIds.isEmpty then
      .error .emptyProducts
    else
      match resolveProducts s productIds with
      | .error e => .error e
      | .ok ps =>
        let total : ℚ := (ps.map Product.price).sum
        let o : Order := ⟨s.nextOrderId, customerId, productIds.dedup, total,
          orderDate⟩
        .ok (o, { s with orders := s.orders ++ [o],
                         nextOrderId := s.nextOrderId + 1 })

/-- The exact decimal sum of the prices of the products associated with
order `o` in store `s` (an unresolvable id contributes 0; every id of an
order created by `createOrder` resolves). -/
def orderAssociatedSum (s : Store) (o : Order) : ℚ :=
  (o.productIds.map (fun pid => ((findProduct s pid).map Product.price).getD 0)).sum

/-- Splits a character list at its unique `'@'`; `none` when the list
contains no `'@'` or more than one. -/
def splitAtSign : List Char → Option (List Char × List Char)
  | [] => none
  | '@' :: rest => if rest.contains '@' then none else some ([], rest)
  | c :: rest =>
    match splitAtSign rest with
    | some (l, r) => some (c :: l, r)
    | none => none

/-- Modelled from the spec: Django's `validate_email` is imported at
src/crm/schema.py line 4 but never invoked, so email syntax validation
exists in this repository only as the spec's requirement "must be a
syntactically valid email".  This predicate states minimal necessary
conditions any syntactic email validator imposes: a single `@` separating
a non-empty local part from a non-empty domain. -/
def syntacticEmailOk (email : String) : Bool :=
  match splitAtSign email.data with
  | some (l, r) => !l.isEmpty && !r.isEmpty
  | none => false

/-- The exact rational value of the IEEE-754 binary64 floating-point
number nearest to 9.99 — the value a GraphQL `Float` literal `9.99`
delivers to the resolver.  9.99 lies in [2^3, 2^4), where the binary64
grid has spacing 2^(3-52) = 2^-49; the two neighbouring grid points are
5623870034678906/2^49 and 5623870034678907/2^49, and rounding to nearest
picks the latter (see `float64_9_99_rounding`). -/
def float64_9_99 : ℚ :=
  5623870034678907 / 2 ^ 49

theorem float64_9_99_rounding :
    (5623870034678906 / 2 ^ 49 : ℚ) < 999 / 100 ∧
    (999 / 100 : ℚ) < 5623870034678907 / 2 ^ 49 ∧
    (999 / 100 - 5623870034678906 / 2 ^ 49 : ℚ) >
      5623870034678907 / 2 ^ 49 - 999 / 100 := by
  refine ⟨by norm_num, by norm_num, by norm_num⟩

/-- A concrete populated store used by witnesses and counterexamples:
one customer (id 1) and two products, id 1 priced 10.00 and id 2 priced
5.50. -/
def demoStore : Store :=
  ⟨[⟨1, "Carol", "c@x.com", none⟩],
   [⟨1, "Widget", 10, 5⟩, ⟨2, "Gadget", 11 / 2, 5⟩],
   [], 2, 3, 1⟩

/-- C1: the claim says a CreateProduct call with price 9.99 stores a
price equal to exactly the decimal 9.99.  The `price` argument is a
`graphene.Float`, so the resolver receives the binary64 value nearest to
9.99, and `Decimal(price)` preserves that value exactly: the call
succeeds, but the stored price is 5623870034678907/2^49 ≈
9.990000000000000213, which differs from 999/100. -/
theorem createProduct_price_9_99_not_exact :
    createProduct emptyStore "Widget" float64_9_99 3 =
      .ok (⟨1, "Widget", float64_9_99, 3⟩,
        ⟨[], [⟨1, "Widget", float64_9_99, 3⟩], [], 1, 2, 1⟩) ∧
    float64_9_99 ≠ 999 / 100 := by
  have h1 : ¬ (float64_9_99 ≤ 0) := by norm_num [float64_9_99]
  have h2 : ¬ ((3 : Int) < 0) := by norm_num
  constructor
  · unfold createProduct
    rw [if_neg h1, if_neg h2]
    rfl
  · norm_num [float64_9_99]

/-- C2 counterexample: with an empty product list and a customer id that
does not resolve, CreateOrder fails with the customer-lookup error — a
NotFoundError, not the ValidationError the claim promises regardless of
customer validity. -/
theorem createOrder_emptyProducts_counterexample :
    createOrder emptyStore 1 [] none = .error Err.invalidCustomer ∧
    Err.isValidation Err.invalidCustomer = false ∧
    Err.isNotFound Err.invalidCustomer = true :=
  ⟨rfl, rfl, rfl⟩

/-- C2 (amended): every CreateOrder call with an empty product_ids list
fails and creates nothing; the failure is the empty-products
ValidationError when the customer resolves, and the customer-lookup
NotFoundError when it does not, because the customer lookup precedes the
emptiness check. -/
theorem createOrder_emptyProducts_amended (s : Store) (cid : Nat)
    (od : Option Nat) :
    ((findCustomer s cid).isSome →
      createOrder s cid [] od = .error Err.emptyProducts ∧
      Err.isValidation Err.emptyProducts = true) ∧
    (findCustomer s cid = none →
      createOrder s cid [] od = .error Err.invalidCustomer) ∧
    (createOrder s cid [] od).isOk = false ∧
    runStore s (createOrder s cid [] od) = s := by
  cases h : findCustomer s cid with
  | none =>
    refine ⟨fun hs => ?_, fun _ => ?_, ?_, ?_⟩ <;>
      simp_all [createOrder, runStore, Except.isOk, Except.toBool]
  | some c =>
    refine ⟨fun _ => ⟨?_, rfl⟩, fun hn => ?_, ?_, ?_⟩ <;>
      simp_all [createOrder, runStore, Except.isOk, Except.toBool]

/-- C2 witness: in `demoStore` customer 1 exists, and CreateOrder with an
empty product list fails with the empty-products ValidationError. -/
theorem createOrder_emptyProducts_amended_witness :
    createOrder demoStore 1 [] none = .error Err.emptyProducts ∧
    Err.isValidation Err.emptyProducts = true :=
  (createOrder_emptyProducts_amended demoStore 1 none).1 (by decide)

/-- C4: the claim says CreateCustomer rejects syntactically invalid
emails.  The mutation never validates email syntax (`validate_email` is
imported at src/crm/schema.py line 4 but never called): with the invalid
email "not-an-email" the call succeeds and the customer is persisted. -/
theorem createCustomer_invalid_email_accepted :
    syntacticEmailOk "not-an-email" = false ∧
    createCustomer emptyStore "Alice" "not-an-email" none =
      .ok ((⟨1, "Alice", "not-an-email", none⟩, "Customer created successfully"),
        ⟨[⟨1, "Alice", "not-an-email", none⟩], [], [], 2, 1, 1⟩) := by
  exact ⟨by decide, rfl⟩

lemma resolveProducts_ok_prices (s : Store) :
    ∀ (pids : List Nat) (ps : List Product), resolveProducts s pids = .ok ps →
      ps.map Product.price =
        pids.map (fun pid => ((findProduct s pid).map Product.price).getD 0) := by
  intro pids
  induction pids with
  | nil =>
    intro ps h
    unfold resolveProducts at h
    simp only [Except.ok.injEq] at h
    simp [← h]
  | cons pid rest ih =>
    intro ps h
    unfold resolveProducts at h
    cases hf : findProduct s pid with
    | none => rw [hf] at h; simp at h
    | some p =>
      rw [hf] at h
      cases hr : resolveProducts s rest with
      | error e => rw [hr] at h; simp at h
      | ok qs =>
        rw [hr] at h
        simp only [Except.ok.injEq] at h
        simp [← h, ih qs hr, hf]

/-- C3 counterexample: an order created with the duplicate id list
`[1, 1]` over a product priced 10.00 gets `total_amount` 20.00 (the loop
adds the price once per occurrence), while `products.set` associates the
product only once, so the sum of the associated products' prices is
10.00 ≠ 20.00. -/
theorem createOrder_total_counterexample :
    ∃ o s', createOrder demoStore 1 [1, 1] none = .ok (o, s') ∧
      o.totalAmount = 20 ∧ o.productIds = [1] ∧
      orderAssociatedSum s' o = 10 ∧
      o.totalAmount ≠ orderAssociatedSum s' o := by
  refine ⟨⟨1, 1, [1], 20, none⟩,
    ⟨[⟨1, "Carol", "c@x.com", none⟩],
     [⟨1, "Widget", 10, 5⟩, ⟨2, "Gadget", 11 / 2, 5⟩],
     [⟨1, 1, [1], 20, none⟩], 2, 3, 2⟩, ?_, rfl, rfl, ?_, ?_⟩
  · simp [createOrder, demoStore, findCustomer, resolveProducts, findProduct,
      List.dedup, List.pwFilter]
    norm_num
  · simp [orderAssociatedSum, findProduct]
  · simp [orderAssociatedSum, findProduct]

/-- C3 (amended): on every successful CreateOrder, `total_amount` is the
exact decimal sum of the prices of the products resolved from
`product_ids` counted with multiplicity, while the stored association is
the deduplicated id list; whenever `product_ids` has no duplicates this
equals the sum of the associated products' prices (in particular the
10.00 / 5.50 two-product order totals exactly 15.50, see the witness). -/
theorem createOrder_total_amended (s : Store) (cid : Nat) (pids : List Nat)
    (od : Option Nat) (o : Order) (s' : Store)
    (h : createOrder s cid pids od = .ok (o, s')) :
    o.totalAmount =
      (pids.map (fun pid => ((findProduct s pid).map Product.price).getD 0)).sum ∧
    o.productIds = pids.dedup ∧
    (pids.Nodup → o.totalAmount = orderAssociatedSum s' o) := by
  unfold createOrder at h
  cases hc : findCustomer s cid with
  | none => rw [hc] at h; simp at h
  | some c =>
    rw [hc] at h
    cases he : pids.isEmpty with
    | true => simp [he] at h
    | false =>
      simp only [he, Bool.false_eq_true, if_false] at h
      cases hr : resolveProducts s pids with
      | error e => rw [hr] at h; simp at h
      | ok ps =>
        rw [hr] at h
        simp only [Except.ok.injEq, Prod.mk.injEq] at h
        obtain ⟨ho, hs⟩ := h
        have hprice := resolveProducts_ok_prices s pids ps hr
        refine ⟨?_, ?_, ?_⟩
        · rw [← ho]
          simp [hprice]
        · rw [← ho]
        · intro hnd
          rw [← ho, ← hs]
          simp only [orderAssociatedSum, findProduct]
          rw [List.dedup_eq_self.mpr hnd]
          simp [hprice, findProduct]

/-- C3 witness: the amended theorem applied to the order over products 1
(priced 10.00) and 2 (priced 5.50) of `demoStore`, whose total_amount is
exactly 15.50. -/
theorem createOrder_total_amended_witness :
    (⟨1, 1, [1, 2], 31 / 2, none⟩ : Order).totalAmount =
      ([1, 2].map (fun pid => ((findProduct demoStore pid).map Product.price).getD 0)).sum ∧
    (⟨1, 1, [1, 2], 31 / 2, none⟩ : Order).productIds = [1, 2].dedup ∧
    (([1, 2] : List Nat).Nodup →
      (⟨1, 1, [1, 2], 31 / 2, none⟩ : Order).totalAmount =
        orderAssociatedSum
          ⟨[⟨1, "Carol", "c@x.com", none⟩],
           [⟨1, "Widget", 10, 5⟩, ⟨2, "Gadget", 11 / 2, 5⟩],
           [⟨1, 1, [1, 2], 31 / 2, none⟩], 2, 3, 2⟩
          ⟨1, 1, [1, 2], 31 / 2, none⟩) :=
  createOrder_total_amended demoStore 1 [1, 2] none
    ⟨1, 1, [1, 2], 31 / 2, none⟩
    ⟨[⟨1, "Carol", "c@x.com", none⟩],
     [⟨1, "Widget", 10, 5⟩, ⟨2, "Gadget", 11 / 2, 5⟩],
     [⟨1, 1, [1, 2], 31 / 2, none⟩], 2, 3, 2⟩
    (by
      simp [createOrder, demoStore, findCustomer, resolveProducts, findProduct,
        List.dedup, List.pwFilter]
      norm_num)

/-- C5 counterexample: the claim fails on three phone strings that match
neither accepted pattern.  `""` is falsy in Python, so the format check
is skipped and CreateCustomer succeeds; `"123-456-7890\n"` passes
`re.match` because Python's `$` also matches before a trailing newline,
so CreateCustomer succeeds; and with phone `"12345"` but an email that
already exists, the failure is the email ConflictError, not an error
identifying the phone issue. -/
theorem phone_validation_counterexample :
    phoneCore "".data = false ∧
    phoneCore "123-456-7890\n".data = false ∧
    (createCustomer emptyStore "Ann" "ann@x.com" (some "")).isOk = true ∧
    (createCustomer emptyStore "Bob" "bob@x.com"
      (some "123-456-7890\n")).isOk = true ∧
    createCustomer demoStore "Dan" "c@x.com" (some "12345") =
      .error Err.emailExists := by
  refine ⟨rfl, by decide, rfl, by decide, rfl⟩

/-- C5 (amended): for every non-empty phone string that fails
`re.match(r'^(\+\d{10,15}|\d{3}-\d{3}-\d{4})$', ...)` (which tolerates
one trailing newline), and provided the checks that run earlier pass
(fresh email; for the bulk loop also present name and email),
CreateCustomer fails with the phone ValidationError persisting nothing,
and the bulk loop records the row's phone error; `+12345678901` and
`123-456-7890` are accepted and `12345` is rejected. -/
theorem phone_validation_amended (s : Store) (nm em p : String) (row : Nat)
    (hfresh : hasEmail s em = false) (hnm : nm ≠ "") (hem : em ≠ "")
    (hp : p ≠ "") (hbad : pythonPhoneMatch p = false) :
    createCustomer s nm em (some p) = .error Err.invalidPhone ∧
    Err.isValidation Err.invalidPhone = true ∧
    Err.message Err.invalidPhone =
      "Invalid phone format. Use +1234567890 or 123-456-7890" ∧
    runStore s (createCustomer s nm em (some p)) = s ∧
    processItem s row ⟨some nm, some em, some p⟩ =
      .error (rowTag row ++ "Invalid phone format") ∧
    pythonPhoneMatch "+12345678901" = true ∧
    pythonPhoneMatch "123-456-7890" = true ∧
    pythonPhoneMatch "12345" = false := by
  have h1 : createCustomer s nm em (some p) = .error Err.invalidPhone := by
    simp [createCustomer, hfresh, strTruthy, hp, hbad]
  have h2 : processItem s row ⟨some nm, some em, some p⟩ =
      .error (rowTag row ++ "Invalid phone format") := by
    simp [processItem, hfresh, strTruthy, hp, hbad, hnm, hem]
  exact ⟨h1, rfl, rfl, by rw [h1]; rfl, h2, by decide, by decide, by decide⟩

/-- C5 witness: the amended theorem at the rejected example `12345` on
the empty store. -/
theorem phone_validation_amended_witness :
    createCustomer emptyStore "Ann" "ann@x.com" (some "12345") =
      .error Err.invalidPhone ∧
    Err.isValidation Err.invalidPhone = true ∧
    Err.message Err.invalidPhone =
      "Invalid phone format. Use +1234567890 or 123-456-7890" ∧
    runStore emptyStore
      (createCustomer emptyStore "Ann" "ann@x.com" (some "12345")) =
      emptyStore ∧
    processItem emptyStore 1 ⟨some "Ann", some "ann@x.com", some "12345"⟩ =
      .error (rowTag 1 ++ "Invalid phone format") ∧
    pythonPhoneMatch "+12345678901" = true ∧
    pythonPhoneMatch "123-456-7890" = true ∧
    pythonPhoneMatch "12345" = false :=
  phone_validation_amended emptyStore "Ann" "ann@x.com" "12345" 1 rfl
    (by decide) (by decide) (by decide) (by decide)

/-- C6: starting from any store without the emails a@x.com and b@x.com,
the three-row bulk input `[{A, a@x.com}, {"", b@x.com}, {C, a@x.com}]`
creates exactly customer A and collects exactly the row-2 error (empty
name) and the row-3 error (a@x.com was persisted by row 1), in that
order. -/
theorem bulk_three_rows (s : Store)
    (ha : hasEmail s "a@x.com" = false) (_hb : hasEmail s "b@x.com" = false) :
    ∃ c s', bulkCreateCustomers s
        [⟨some "A", some "a@x.com", none⟩,
         ⟨some "", some "b@x.com", none⟩,
         ⟨some "C", some "a@x.com", none⟩] =
      (([c], ["Row 2: Name and email are required",
              "Row 3: Email already exists"]), s') ∧
      c.name = "A" ∧ c.email = "a@x.com" := by
  have h1 : processItem s 1 ⟨some "A", some "a@x.com", none⟩ =
      .ok (⟨s.nextCustomerId, "A", "a@x.com", none⟩,
        { s with customers := s.customers ++ [⟨s.nextCustomerId, "A", "a@x.com", none⟩],
                 nextCustomerId := s.nextCustomerId + 1 }) := by
    simp [processItem, strTruthy, ha]
  have hmail : hasEmail
      { s with customers := s.customers ++ [⟨s.nextCustomerId, "A", "a@x.com", none⟩],
               nextCustomerId := s.nextCustomerId + 1 } "a@x.com" = true := by
    simp [hasEmail]
  have h2 : ∀ t : Store, processItem t 2 ⟨some "", some "b@x.com", none⟩ =
      .error "Row 2: Name and email are required" := by
    intro t
    simp [processItem, strTruthy]
    decide
  have h3 : processItem
      { s with customers := s.customers ++ [⟨s.nextCustomerId, "A", "a@x.com", none⟩],
               nextCustomerId := s.nextCustomerId + 1 } 3
      ⟨some "C", some "a@x.com", none⟩ = .error "Row 3: Email already exists" := by
    simp [processItem, strTruthy, hmail]
    decide
  refine ⟨⟨s.nextCustomerId, "A", "a@x.com", none⟩,
    { s with customers := s.customers ++ [⟨s.nextCustomerId, "A", "a@x.com", none⟩],
             nextCustomerId := s.nextCustomerId + 1 }, ?_, rfl, rfl⟩
  simp only [bulkCreateCustomers, bulkLoop, h1, h2, h3]

/-- C10: every entry of a bulk input yields exactly one outcome, so the
number of created customers plus the number of error strings equals the
length of the input list. -/
theorem bulk_outcome_count (s : Store) (input : List BulkItem) :
    ((bulkCreateCustomers s input).1.1).length +
      ((bulkCreateCustomers s input).1.2).length = input.length := by
  suffices h : ∀ (l : List BulkItem) (t : Store) (row : Nat),
      (bulkLoop t row l).1.1.length + (bulkLoop t row l).1.2.length = l.length by
    exact h input s 1
  intro l
  induction l with
  | nil => intro t row; simp [bulkLoop]
  | cons item rest ih =>
    intro t row
    unfold bulkLoop
    cases h : processItem t row item with
    | ok cs =>
      have h' := ih cs.2 (row + 1)
      simp only [List.length_cons]
      omega
    | error e =>
      have h' := ih t (row + 1)
      simp only [List.length_cons]
      omega

lemma processItem_error_form (s : Store) (row : Nat) (item : BulkItem)
    (e : String) (h : processItem s row item = .error e) :
    ∃ msg, e = rowTag row ++ msg := by
  unfold processItem at h
  split at h
  · exact ⟨"Name and email are required", by injection h with h'; rw [← h']⟩
  · split at h
    · exact ⟨"Email already exists", by injection h with h'; rw [← h']⟩
    · split at h
      · exact ⟨"Invalid phone format", by injection h with h'; rw [← h']⟩
      · simp at h

lemma bulkOutcomes_length :
    ∀ (l : List BulkItem) (s : Store) (row : Nat),
      (bulkOutcomes s row l).length = l.length := by
  intro l
  induction l with
  | nil => intro s row; simp [bulkOutcomes]
  | cons item rest ih =>
    intro s row
    unfold bulkOutcomes
    cases h : processItem s row item with
    | ok cs => simp [ih cs.2 (row + 1)]
    | error e => simp [ih s (row + 1)]

lemma bulkLoop_eq_outcomes :
    ∀ (l : List BulkItem) (s : Store) (row : Nat),
      (bulkLoop s row l).1.1 = outcomeOks (bulkOutcomes s row l) ∧
      (bulkLoop s row l).1.2 = outcomeErrors (bulkOutcomes s row l) := by
  intro l
  induction l with
  | nil => intro s row; simp [bulkLoop, bulkOutcomes, outcomeOks, outcomeErrors]
  | cons item rest ih =>
    intro s row
    unfold bulkLoop bulkOutcomes
    cases h : processItem s row item with
    | ok cs =>
      simp [outcomeOks, outcomeErrors, (ih cs.2 (row + 1)).1, (ih cs.2 (row + 1)).2]
    | error e =>
      simp [outcomeOks, outcomeErrors, (ih s (row + 1)).1, (ih s (row + 1)).2]

lemma bulkOutcomes_error_form :
    ∀ (l : List BulkItem) (s : Store) (row k : Nat) (e : String),
      (bulkOutcomes s row l)[k]? = some (.error e) →
      ∃ msg, e = rowTag (row + k) ++ msg := by
  intro l
  induction l with
  | nil => intro s row k e h; simp [bulkOutcomes] at h
  | cons item rest ih =>
    intro s row k e h
    unfold bulkOutcomes at h
    cases hp : processItem s row item with
    | ok cs =>
      rw [hp] at h
      cases k with
      | zero => simp at h
      | succ k' =>
        simp only [List.getElem?_cons_succ] at h
        obtain ⟨msg, hm⟩ := ih cs.2 (row + 1) k' e h
        refine ⟨msg, ?_⟩
        rw [hm]
        have hk : row + 1 + k' = row + (k' + 1) := by omega
        rw [hk]
    | error e' =>
      rw [hp] at h
      cases k with
      | zero =>
        simp only [List.getElem?_cons_zero, Option.some.injEq,
          Except.error.injEq] at h
        obtain ⟨msg, hm⟩ := processItem_error_form s row item e' hp
        exact ⟨msg, by rw [← h, hm, Nat.add_zero]⟩
      | succ k' =>
        simp only [List.getElem?_cons_succ] at h
        obtain ⟨msg, hm⟩ := ih s (row + 1) k' e h
        refine ⟨msg, ?_⟩
        rw [hm]
        have hk : row + 1 + k' = row + (k' + 1) := by omega
        rw [hk]

/-- C7: the bulk mutation processes every entry — it returns one outcome
per input row, its created-customers and errors lists are exactly the
success and failure projections of that outcome stream (so one row's
failure never drops a sibling row), and every error string carries the
`Row <n>: ` lead-in for that entry's 1-based index. -/
theorem bulk_row_isolation (s : Store) (input : List BulkItem) :
    (bulkOutcomes s 1 input).length = input.length ∧
    (bulkCreateCustomers s input).1.1 = outcomeOks (bulkOutcomes s 1 input) ∧
    (bulkCreateCustomers s input).1.2 = outcomeErrors (bulkOutcomes s 1 input) ∧
    ∀ k e, (bulkOutcomes s 1 input)[k]? = some (.error e) →
      ∃ msg, e = rowTag (k + 1) ++ msg := by
  refine ⟨bulkOutcomes_length input s 1,
    (bulkLoop_eq_outcomes input s 1).1,
    (bulkLoop_eq_outcomes input s 1).2, ?_⟩
  intro k e h
  obtain ⟨msg, hm⟩ := bulkOutcomes_error_form input s 1 k e h
  refine ⟨msg, ?_⟩
  rw [hm, Nat.add_comm 1 k]

/-- C7 witness: the theorem at the one-row input whose entry has no name
and no email, on the empty store. -/
theorem bulk_row_isolation_witness :
    (bulkOutcomes emptyStore 1 [⟨none, none, none⟩]).length =
      [(⟨none, none, none⟩ : BulkItem)].length ∧
    (bulkCreateCustomers emptyStore [⟨none, none, none⟩]).1.1 =
      outcomeOks (bulkOutcomes emptyStore 1 [⟨none, none, none⟩]) ∧
    (bulkCreateCustomers emptyStore [⟨none, none, none⟩]).1.2 =
      outcomeErrors (bulkOutcomes emptyStore 1 [⟨none, none, none⟩]) ∧
    ∀ k e, (bulkOutcomes emptyStore 1 [⟨none, none, none⟩])[k]? =
        some (.error e) →
      ∃ msg, e = rowTag (k + 1) ++ msg :=
  bulk_row_isolation emptyStore [⟨none, none, none⟩]

/-- C6 witness: the three-row example on the empty store. -/
theorem bulk_three_rows_witness :
    ∃ c s', bulkCreateCustomers emptyStore
        [⟨some "A", some "a@x.com", none⟩,
         ⟨some "", some "b@x.com", none⟩,
         ⟨some "C", some "a@x.com", none⟩] =
      (([c], ["Row 2: Name and email are required",
              "Row 3: Email already exists"]), s') ∧
      c.name = "A" ∧ c.email = "a@x.com" :=
  bulk_three_rows emptyStore rfl rfl

/-- C8: a CreateCustomer call with non-empty name, an email no existing
customer holds, and a pattern-valid phone (or no phone) succeeds,
returning a customer carrying the supplied fields and persisting exactly
one new row; a subsequent call with the same email fails with the
email ConflictError and leaves the store unchanged, whatever its other
arguments. -/
theorem createCustomer_fresh_then_conflict (s : Store) (nm em : String)
    (ph : Option String) (_hnm : nm ≠ "") (hfresh : hasEmail s em = false)
    (hph : ph = none ∨ ∃ p, ph = some p ∧ phoneCore p.data = true) :
    ∃ c s', createCustomer s nm em ph =
        .ok ((c, "Customer created successfully"), s') ∧
      c.name = nm ∧ c.email = em ∧ c.phone = ph ∧
      s'.customers = s.customers ++ [c] ∧
      ∀ nm2 ph2, createCustomer s' nm2 em ph2 = .error Err.emailExists ∧
        Err.isConflict Err.emailExists = true ∧
        runStore s' (createCustomer s' nm2 em ph2) = s' := by
  have hcheck : (strTruthy ph && !pythonPhoneMatch (ph.getD "")) = false := by
    rcases hph with h | ⟨p, hp, hcore⟩
    · simp [h, strTruthy]
    · simp [hp, pythonPhoneMatch, hcore]
  refine ⟨⟨s.nextCustomerId, nm, em, ph⟩,
    { s with customers := s.customers ++ [⟨s.nextCustomerId, nm, em, ph⟩],
             nextCustomerId := s.nextCustomerId + 1 },
    ?_, rfl, rfl, rfl, rfl, ?_⟩
  · simp [createCustomer, hfresh, hcheck]
  · intro nm2 ph2
    have hdup : hasEmail
        { s with customers := s.customers ++ [⟨s.nextCustomerId, nm, em, ph⟩],
                 nextCustomerId := s.nextCustomerId + 1 } em = true := by
      simp [hasEmail]
    have herr : createCustomer
        { s with customers := s.customers ++ [⟨s.nextCustomerId, nm, em, ph⟩],
                 nextCustomerId := s.nextCustomerId + 1 } nm2 em ph2 =
        .error Err.emailExists := by
      simp [createCustomer, hdup]
    exact ⟨herr, rfl, by rw [herr]; rfl⟩

/-- C8 witness: Alice with phone 123-456-7890 on the empty store; a
second call with the same email then fails with the ConflictError. -/
theorem createCustomer_fresh_then_conflict_witness :
    ∃ c s', createCustomer emptyStore "Alice" "alice@x.com"
        (some "123-456-7890") =
        .ok ((c, "Customer created successfully"), s') ∧
      c.name = "Alice" ∧ c.email = "alice@x.com" ∧
      c.phone = some "123-456-7890" ∧
      s'.customers = emptyStore.customers ++ [c] ∧
      ∀ nm2 ph2, createCustomer s' nm2 "alice@x.com" ph2 =
          .error Err.emailExists ∧
        Err.isConflict Err.emailExists = true ∧
        runStore s' (createCustomer s' nm2 "alice@x.com" ph2) = s' :=
  createCustomer_fresh_then_conflict emptyStore "Alice" "alice@x.com"
    (some "123-456-7890") (by decide) rfl
    (Or.inr ⟨"123-456-7890", rfl, by decide⟩)

lemma resolveProducts_first_missing (s : Store) :
    ∀ (pre : List Nat) (bad : Nat) (rest : List Nat),
      (∀ p ∈ pre, (findProduct s p).isSome) → findProduct s bad = none →
      resolveProducts s (pre ++ bad :: rest) = .error (.invalidProduct bad) := by
  intro pre
  induction pre with
  | nil =>
    intro bad rest _ hbad
    show resolveProducts s (bad :: rest) = _
    unfold resolveProducts
    rw [hbad]
  | cons q qs ih =>
    intro bad rest hall hbad
    have hq : (findProduct s q).isSome := hall q (by simp)
    obtain ⟨p, hp⟩ := Option.isSome_iff_exists.mp hq
    have hrest := ih bad rest (fun x hx => hall x (by simp [hx])) hbad
    show resolveProducts s (q :: (qs ++ bad :: rest)) = _
    unfold resolveProducts
    rw [hp, hrest]

/-- C9: CreateOrder fails with a NotFoundError and leaves the store
unchanged both when the customer id does not resolve, and — when the
customer resolves — on the first product id (in input order) that does
not resolve, naming that id, regardless of the ids after it. -/
theorem createOrder_not_found (s : Store) (cid : Nat) (pids : List Nat)
    (od : Option Nat) :
    (findCustomer s cid = none →
      createOrder s cid pids od = .error Err.invalidCustomer ∧
      Err.isNotFound Err.invalidCustomer = true ∧
      runStore s (createOrder s cid pids od) = s) ∧
    (∀ pre bad rest, (findCustomer s cid).isSome →
      pids = pre ++ bad :: rest →
      (∀ p ∈ pre, (findProduct s p).isSome) → findProduct s bad = none →
      createOrder s cid pids od = .error (Err.invalidProduct bad) ∧
      Err.isNotFound (Err.invalidProduct bad) = true ∧
      runStore s (createOrder s cid pids od) = s) := by
  constructor
  · intro hc
    have herr : createOrder s cid pids od = .error Err.invalidCustomer := by
      unfold createOrder
      rw [hc]
    exact ⟨herr, rfl, by rw [herr]; rfl⟩
  · intro pre bad rest hc hsplit hall hbad
    obtain ⟨c, hc'⟩ := Option.isSome_iff_exists.mp hc
    have hres := resolveProducts_first_missing s pre bad rest hall hbad
    have hne : pids.isEmpty = false := by
      subst hsplit
      cases pre <;> simp
    have herr : createOrder s cid pids od = .error (Err.invalidProduct bad) := by
      unfold createOrder
      rw [hc', hne, hsplit]
      simp [hres]
    exact ⟨herr, rfl, by rw [herr]; rfl⟩

/-- C9 witness: both branches of the theorem at concrete inputs — a
missing customer on the empty store, and in `demoStore` the id list
`[1, 99, 7]` whose first unresolvable id 99 is named while the equally
unresolvable 7 after it is never checked. -/
theorem createOrder_not_found_witness :
    (createOrder emptyStore 5 [1] none = .error Err.invalidCustomer ∧
      Err.isNotFound Err.invalidCustomer = true ∧
      runStore emptyStore (createOrder emptyStore 5 [1] none) = emptyStore) ∧
    (createOrder demoStore 1 [1, 99, 7] none =
        .error (Err.invalidProduct 99) ∧
      Err.isNotFound (Err.invalidProduct 99) = true ∧
      runStore demoStore (createOrder demoStore 1 [1, 99, 7] none) =
        demoStore) :=
  ⟨(createOrder_not_found emptyStore 5 [1] none).1 rfl,
   (createOrder_not_found demoStore 1 [1, 99, 7] none).2 [1] 99 [7]
     (by decide) rfl (by decide) rfl⟩

end Crm
